import Mathlib

/-!
Verification development for the openclaw-agentmail listener plugin
(src/index.ts). The definitions below are a shallow embedding of the
source: pure helpers are translated directly, the stateful reconnect
supervisor is modelled as an explicit transition system on its module
state (stopped, currentSocket, reconnectTimer), and the event-dispatch
path is modelled as a function from inputs to a trace of observable
effects. Machine numbers are idealized as rationals where the source
uses JS floats; JS Math.round is floor of x plus one half.
-/

-- ---------------------------------------------------------------------------
-- Backoff policy (src/index.ts lines 344-354)
-- ---------------------------------------------------------------------------

/-- Constant MIN_DELAY_MS from src/index.ts line 344. -/
def MIN_DELAY_MS : ℕ := 1000

/-- Constant MAX_DELAY_MS from src/index.ts line 345. -/
def MAX_DELAY_MS : ℕ := 60000

/-- Constant BACKOFF_FACTOR from src/index.ts line 346. -/
def BACKOFF_FACTOR : ℕ := 2

/-- JS Math.round on an idealized real input: floor of x plus one half. -/
def jsRound (x : ℚ) : ℤ := ⌊x + 1/2⌋

/-- The local variable delay of backoffDelay (src/index.ts line 350):
MIN_DELAY_MS * Math.pow(BACKOFF_FACTOR, attempt - 1). -/
def backoffBase (attempt : ℕ) : ℚ :=
  (MIN_DELAY_MS : ℚ) * (BACKOFF_FACTOR : ℚ) ^ (attempt - 1)

/-- Translation of backoffDelay (src/index.ts lines 348-354). The
parameter u models the jitter draw Math.random() * 2 - 1, which lies in
the half-open interval from -1 to 1. The source adds
jitter = delay * 0.1 * u to the unclamped delay, rounds, and clamps
above by MAX_DELAY_MS. There is no clamp of the base before the jitter
and no explicit lower clamp. -/
def backoffDelay (attempt : ℕ) (u : ℚ) : ℤ :=
  if attempt = 0 then 0
  else min (MAX_DELAY_MS : ℤ)
    (jsRound (backoffBase attempt + backoffBase attempt * (1/10) * u))

/-- Modelled from the spec: sections 4.1 and 8 describe the base as
clamped to MAX_DELAY before the jitter is applied, with the jittered
result then re-clamped to the interval from 0 to MAX_DELAY. This
definition follows those words; it is compared against the
source-derived backoffDelay above. -/
def backoffDelaySpecWords (attempt : ℕ) (u : ℚ) : ℤ :=
  if attempt = 0 then 0
  else
    max 0 (min (MAX_DELAY_MS : ℤ)
      (jsRound (min (MAX_DELAY_MS : ℚ) (backoffBase attempt)
        + min (MAX_DELAY_MS : ℚ) (backoffBase attempt) * (1/10) * u)))

/-- Evaluation helper for jsRound at points whose rounded value is known. -/
theorem jsRound_eq_of_bounds (x : ℚ) (z : ℤ)
    (h1 : (z : ℚ) ≤ x + 1/2) (h2 : x + 1/2 < (z : ℚ) + 1) : jsRound x = z := by
  simp only [jsRound]
  exact Int.floor_eq_iff.mpr ⟨h1, h2⟩

/-- Claim C5 counterexample: the claim asserts the base is clamped to
MAX_DELAY before the plus-or-minus ten percent jitter is applied. In the
source the jitter is applied to the unclamped base and the only clamp is
the final upper clamp. At attempt 7 (base 64000) with jitter draw -1 the
source yields 57600 while the clamp-before-jitter computation the claim
describes yields 54000. -/
theorem backoff_clamp_before_jitter_cex :
    backoffDelay 7 (-1) = 57600 ∧ backoffDelaySpecWords 7 (-1) = 54000 ∧
    backoffDelay 7 (-1) ≠ backoffDelaySpecWords 7 (-1) := by
  have e1 : backoffBase 7 = 64000 := by
    simp only [backoffBase, MIN_DELAY_MS, BACKOFF_FACTOR]
    norm_num
  have hx : backoffBase 7 + backoffBase 7 * (1/10) * (-1) = 57600 := by
    rw [e1]; norm_num
  have hj : jsRound (backoffBase 7 + backoffBase 7 * (1/10) * (-1)) = 57600 := by
    rw [hx]
    exact jsRound_eq_of_bounds 57600 57600 (by norm_num) (by norm_num)
  have h1 : backoffDelay 7 (-1) = 57600 := by
    simp only [backoffDelay, if_neg (by norm_num : (7:ℕ) ≠ 0)]
    rw [hj]
    simp only [MAX_DELAY_MS]
    norm_num
  have e2 : min (MAX_DELAY_MS : ℚ) (backoffBase 7) = 60000 := by
    rw [e1]
    simp only [MAX_DELAY_MS]
    norm_num
  have hx2 : min (MAX_DELAY_MS : ℚ) (backoffBase 7)
      + min (MAX_DELAY_MS : ℚ) (backoffBase 7) * (1/10) * (-1) = 54000 := by
    rw [e2]; norm_num
  have hj2 : jsRound (min (MAX_DELAY_MS : ℚ) (backoffBase 7)
      + min (MAX_DELAY_MS : ℚ) (backoffBase 7) * (1/10) * (-1)) = 54000 := by
    rw [hx2]
    exact jsRound_eq_of_bounds 54000 54000 (by norm_num) (by norm_num)
  have h2 : backoffDelaySpecWords 7 (-1) = 54000 := by
    simp only [backoffDelaySpecWords, if_neg (by norm_num : (7:ℕ) ≠ 0)]
    rw [hj2]
    simp only [MAX_DELAY_MS]
    norm_num
  exact ⟨h1, h2, by rw [h1, h2]; norm_num⟩

/-- Claim C5 (amended): for every attempt n at least 1 and every jitter
draw u in the closed interval from -1 to 1, backoffDelay(n) lies in
[0.9 * min(MAX, base(n)), 1.1 * min(MAX, base(n))] with
base(n) = MIN_DELAY * BACKOFF_FACTOR^(n-1), never exceeds
MAX_DELAY = 60000, and backoffDelay(0) = 0 — but the jitter is applied
to the unclamped base, and the single clamp (an upper clamp by
MAX_DELAY) happens after the jitter; there is no pre-clamp of the base
and no explicit lower re-clamp. -/
theorem backoff_delay_within_jitter_band (n : ℕ) (u : ℚ)
    (hn : 1 ≤ n) (hu1 : -1 ≤ u) (hu2 : u ≤ 1) :
    (9/10) * min (MAX_DELAY_MS : ℚ) (backoffBase n) ≤ ((backoffDelay n u : ℤ) : ℚ) ∧
    ((backoffDelay n u : ℤ) : ℚ) ≤ (11/10) * min (MAX_DELAY_MS : ℚ) (backoffBase n) ∧
    ((backoffDelay n u : ℤ) : ℚ) ≤ (MAX_DELAY_MS : ℚ) ∧
    backoffDelay 0 u = 0 := by
  have hn0 : n ≠ 0 := by omega
  set p : ℤ := 2 ^ (n - 1) with hp
  have hppos : (0:ℤ) < p := by rw [hp]; positivity
  have hpq : (0:ℚ) < (p:ℚ) := by exact_mod_cast hppos
  have hbase : backoffBase n = 1000 * (p : ℚ) := by
    rw [hp]
    simp only [backoffBase, MIN_DELAY_MS, BACKOFF_FACTOR]
    push_cast
    ring
  have hdpos : (0:ℚ) < backoffBase n := by rw [hbase]; linarith
  set x : ℚ := backoffBase n + backoffBase n * (1/10) * u with hxdef
  have hx1 : (9/10) * backoffBase n ≤ x := by rw [hxdef]; nlinarith
  have hx2 : x ≤ (11/10) * backoffBase n := by rw [hxdef]; nlinarith
  have hlow : 900 * p ≤ jsRound x := by
    simp only [jsRound]
    refine Int.le_floor.mpr ?_
    have h9 : ((900 * p : ℤ) : ℚ) = (9/10) * backoffBase n := by
      rw [hbase]; push_cast; ring
    rw [h9]; linarith
  have hhigh : jsRound x ≤ 1100 * p := by
    refine Int.lt_add_one_iff.mp ?_
    simp only [jsRound]
    refine Int.floor_lt.mpr ?_
    have h11 : ((1100 * p + 1 : ℤ) : ℚ) = (11/10) * backoffBase n + 1 := by
      rw [hbase]; push_cast; ring
    rw [h11]; linarith
  have hval : backoffDelay n u = min (MAX_DELAY_MS : ℤ) (jsRound x) := by
    simp only [backoffDelay, if_neg hn0]
  refine ⟨?_, ?_, ?_, by simp [backoffDelay]⟩
  · -- lower bound
    rw [hval]
    by_cases hc : backoffBase n ≤ (MAX_DELAY_MS : ℚ)
    · rw [min_eq_right hc]
      have hple : p ≤ 60 := by
        have ha : (1000:ℚ) * (p:ℚ) ≤ 60000 := by
          rw [← hbase]
          simpa [MAX_DELAY_MS] using hc
        have hb : (p:ℚ) ≤ 60 := by linarith
        exact_mod_cast hb
      have hmz : (MAX_DELAY_MS : ℤ) = 60000 := by simp [MAX_DELAY_MS]
      have hminz : (900 * p : ℤ) ≤ min (MAX_DELAY_MS : ℤ) (jsRound x) := by
        rw [hmz]
        exact le_min (by omega) hlow
      have hcast : ((900 * p : ℤ) : ℚ) ≤ ((min (MAX_DELAY_MS : ℤ) (jsRound x) : ℤ) : ℚ) := by
        exact_mod_cast hminz
      have h9 : ((900 * p : ℤ) : ℚ) = (9/10) * backoffBase n := by
        rw [hbase]; push_cast; ring
      rw [h9] at hcast
      exact hcast
    · push_neg at hc
      rw [min_eq_left hc.le]
      have hpge : 61 ≤ p := by
        have ha : (60000:ℚ) < 1000 * (p:ℚ) := by
          rw [← hbase]
          simpa [MAX_DELAY_MS] using hc
        have hb : (60:ℚ) < (p:ℚ) := by linarith
        have hc2 : (60:ℤ) < p := by exact_mod_cast hb
        omega
      have hmz : (MAX_DELAY_MS : ℤ) = 60000 := by simp [MAX_DELAY_MS]
      have hminz : (54000 : ℤ) ≤ min (MAX_DELAY_MS : ℤ) (jsRound x) := by
        rw [hmz]
        refine le_min (by norm_num) (by omega)
      have hcast : (54000 : ℚ) ≤ ((min (MAX_DELAY_MS : ℤ) (jsRound x) : ℤ) : ℚ) := by
        exact_mod_cast hminz
      have hm : (9/10) * (MAX_DELAY_MS : ℚ) = 54000 := by
        simp [MAX_DELAY_MS]
        norm_num
      rw [hm]
      exact hcast
  · -- upper bound
    rw [hval]
    by_cases hc : backoffBase n ≤ (MAX_DELAY_MS : ℚ)
    · rw [min_eq_right hc]
      have hz : min (MAX_DELAY_MS : ℤ) (jsRound x) ≤ 1100 * p :=
        le_trans (min_le_right _ _) hhigh
      have hcast : ((min (MAX_DELAY_MS : ℤ) (jsRound x) : ℤ) : ℚ) ≤ ((1100 * p : ℤ) : ℚ) := by
        exact_mod_cast hz
      have h11 : ((1100 * p : ℤ) : ℚ) = (11/10) * backoffBase n := by
        rw [hbase]; push_cast; ring
      rw [h11] at hcast
      exact hcast
    · push_neg at hc
      rw [min_eq_left hc.le]
      have hcast : ((min (MAX_DELAY_MS : ℤ) (jsRound x) : ℤ) : ℚ) ≤ (MAX_DELAY_MS : ℚ) := by
        exact_mod_cast min_le_left (MAX_DELAY_MS : ℤ) (jsRound x)
      have hnn : (0:ℚ) ≤ (MAX_DELAY_MS : ℚ) := by positivity
      nlinarith
  · -- never exceeds MAX
    rw [hval]
    exact_mod_cast min_le_left (MAX_DELAY_MS : ℤ) (jsRound x)

/-- Witness for claim C5 at attempt 3 with jitter draw one half. -/
theorem backoff_delay_within_jitter_band_witness :
    (1 ≤ 3 ∧ (-1 : ℚ) ≤ 1/2 ∧ (1/2 : ℚ) ≤ 1) ∧
    ((9/10) * min (MAX_DELAY_MS : ℚ) (backoffBase 3) ≤ ((backoffDelay 3 (1/2) : ℤ) : ℚ) ∧
      ((backoffDelay 3 (1/2) : ℤ) : ℚ) ≤ (11/10) * min (MAX_DELAY_MS : ℚ) (backoffBase 3) ∧
      ((backoffDelay 3 (1/2) : ℤ) : ℚ) ≤ (MAX_DELAY_MS : ℚ) ∧
      backoffDelay 0 (1/2) = 0) :=
  ⟨⟨by norm_num, by norm_num, by norm_num⟩,
    backoff_delay_within_jitter_band 3 (1/2) (by norm_num) (by norm_num) (by norm_num)⟩

-- ---------------------------------------------------------------------------
-- Preview derivation (src/index.ts line 235)
-- ---------------------------------------------------------------------------

/-- Whitespace as matched by the JS regular-expression class backslash-s
(and by String.prototype.trim): ASCII whitespace plus the Unicode space
separators, line and paragraph separators, NBSP and BOM. -/
def isJsWs (c : Char) : Bool :=
  c = ' ' || c = '\t' || c = '\n' || c = '\r' || c = '\x0b' || c = '\x0c' ||
  c = ' ' || c = ' ' || (' ' ≤ c && c ≤ ' ') ||
  c = ' ' || c = ' ' || c = ' ' || c = ' ' ||
  c = '　' || c = '﻿'

/-- Replacement of every maximal whitespace run by a single space,
modelling String.prototype.replace with the global pattern
backslash-s-plus and replacement one space. The boolean records whether
the previous character was part of a whitespace run. -/
def collapseWsAux : Bool → List Char → List Char
  | _, [] => []
  | prevWs, c :: rest =>
    if isJsWs c then
      if prevWs then collapseWsAux true rest
      else ' ' :: collapseWsAux true rest
    else c :: collapseWsAux false rest

/-- Collapse of whitespace runs to single spaces, as the replace call on
src/index.ts line 235. -/
def collapseWs (l : List Char) : List Char := collapseWsAux false l

/-- JS String.prototype.trim: drop leading and trailing whitespace. -/
def jsTrim (l : List Char) : List Char :=
  ((l.dropWhile (fun c => isJsWs c)).reverse.dropWhile (fun c => isJsWs c)).reverse

/-- Translation of the preview expression on src/index.ts line 235:
(msg.preview ?? msg.text ?? "").slice(0, 200).replace(规, " ").trim() —
the body is truncated to 200 characters FIRST, then whitespace runs are
collapsed, then the ends are trimmed. -/
def derivePreviewL (preview text : Option (List Char)) : List Char :=
  jsTrim (collapseWs ((preview.getD (text.getD [])).take 200))

/-- String wrapper of derivePreviewL, used by the event-dispatch model. -/
def derivePreview (preview text : Option String) : String :=
  String.mk (derivePreviewL (preview.map String.data) (text.map String.data))

/-- Modelled from the spec: sections 4.4 and 8 describe the preview as
the first 200 characters OF the whitespace-collapsed (and trimmed) body,
that is collapse first, then truncate. Compared against the
source-derived derivePreviewL above. -/
def derivePreviewSpecWords (body : List Char) : List Char :=
  (jsTrim (collapseWs body)).take 200

/-- A 250-character body: one letter a, two spaces, then 247 letters b. -/
def previewCexBody : List Char := 'a' :: ' ' :: ' ' :: List.replicate 247 'b'

set_option maxRecDepth 4000 in
/-- Claim C4 counterexample: on a 250-character body whose first 200
characters contain a whitespace run, truncate-then-collapse (the code)
and collapse-then-truncate (the claim) disagree: the code yields 199
characters, the claim says exactly the first 200 characters of the
collapsed body. -/
theorem preview_collapse_first_cex :
    previewCexBody.length = 250 ∧
    (derivePreviewL none (some previewCexBody)).length = 199 ∧
    (derivePreviewSpecWords previewCexBody).length = 200 ∧
    derivePreviewL none (some previewCexBody) ≠ derivePreviewSpecWords previewCexBody := by
  refine ⟨by decide, by decide, by decide, by decide⟩

/-- Length of the collapse is at most the length of the input. -/
theorem collapseWsAux_length_le (b : Bool) (l : List Char) :
    (collapseWsAux b l).length ≤ l.length := by
  induction l generalizing b with
  | nil => simp [collapseWsAux]
  | cons c rest ih =>
    simp only [collapseWsAux]
    by_cases hc : isJsWs c = true
    · simp only [hc, if_true]
      by_cases hb : b = true
      · simp only [hb, if_true, List.length_cons]
        exact Nat.le_succ_of_le (ih true)
      · simp only [eq_false_of_ne_true hb, if_false, List.length_cons]
        exact Nat.succ_le_succ (ih true)
    · simp only [eq_false_of_ne_true hc, if_false, List.length_cons]
      exact Nat.succ_le_succ (ih false)

/-- Length of the trim is at most the length of the input. -/
theorem jsTrim_length_le (l : List Char) : (jsTrim l).length ≤ l.length := by
  simp only [jsTrim, List.length_reverse]
  calc ((l.dropWhile (fun c => isJsWs c)).reverse.dropWhile (fun c => isJsWs c)).length
      ≤ (l.dropWhile (fun c => isJsWs c)).reverse.length :=
        (List.dropWhile_sublist _).length_le
    _ = (l.dropWhile (fun c => isJsWs c)).length := List.length_reverse _
    _ ≤ l.length := (List.dropWhile_sublist _).length_le

/-- Claim C4 (amended): for every message-received frame with no
explicit preview field and a 250-character body, the derived preview is
the whitespace-collapsed and trimmed version of the FIRST 200 raw
characters of the body — the source truncates to 200 first and collapses
and trims afterwards — so the preview has at most 200 characters but may
have fewer, and content pushed past position 200 by later-collapsed
whitespace is lost. -/
theorem preview_truncates_before_collapse (body : List Char)
    (hlen : body.length = 250) :
    derivePreviewL none (some body) = jsTrim (collapseWs (body.take 200)) ∧
    (derivePreviewL none (some body)).length ≤ 200 := by
  constructor
  · rfl
  · calc (derivePreviewL none (some body)).length
        ≤ (collapseWs (body.take 200)).length := jsTrim_length_le _
      _ ≤ (body.take 200).length := collapseWsAux_length_le false _
      _ ≤ 200 := List.length_take_le _ _

set_option maxRecDepth 4000 in
/-- Witness for claim C4 at the concrete 250-character body. -/
theorem preview_truncates_before_collapse_witness :
    previewCexBody.length = 250 ∧
    (derivePreviewL none (some previewCexBody)
        = jsTrim (collapseWs (previewCexBody.take 200)) ∧
      (derivePreviewL none (some previewCexBody)).length ≤ 200) :=
  ⟨by decide, preview_truncates_before_collapse previewCexBody (by decide)⟩

-- ---------------------------------------------------------------------------
-- Dedup key derivation (src/index.ts lines 236 and 252-255)
-- ---------------------------------------------------------------------------

/-- Translation of the identifier fallback chain and context-key
construction: messageId = msg.messageId ?? msgEvent.eventId ?? "unknown"
(line 236) and contextKey = "agentmail:" + messageId (line 254). -/
def dedupKey (messageId eventId : Option String) : String :=
  "agentmail:" ++ (messageId.getD (eventId.getD "unknown"))

/-- Appending a String distributes over the data lists. -/
theorem string_data_append (a b : String) : (a ++ b).data = a.data ++ b.data := by
  cases a
  cases b
  rfl

/-- A common prefix cancels on the left of String append. -/
theorem string_append_left_cancel (p a b : String) (h : p ++ a = p ++ b) : a = b := by
  have hd : p.data ++ a.data = p.data ++ b.data := by
    rw [← string_data_append, ← string_data_append, h]
  have hab : a.data = b.data := List.append_cancel_left hd
  cases a
  cases b
  exact congrArg String.mk hab

/-- Claim C7: two message-received frames with the same message
identifier derive the same dedup key whatever their event identifiers
are; two frames with different message identifiers derive different
dedup keys; and two frames without message identifiers but with
different event identifiers derive different dedup keys. -/
theorem dedup_key_identifies_message (m m1 m2 e1 e2 : String)
    (f1 f2 g1 g2 : Option String) (hm : m1 ≠ m2) (he : e1 ≠ e2) :
    dedupKey (some m) f1 = dedupKey (some m) f2 ∧
    dedupKey (some m1) g1 ≠ dedupKey (some m2) g2 ∧
    dedupKey none (some e1) ≠ dedupKey none (some e2) := by
  refine ⟨rfl, ?_, ?_⟩
  · intro h
    exact hm (string_append_left_cancel "agentmail:" m1 m2 h)
  · intro h
    exact he (string_append_left_cancel "agentmail:" e1 e2 h)

/-- Witness for claim C7 at concrete identifiers. -/
theorem dedup_key_identifies_message_witness :
    (("msg-1" : String) ≠ "msg-2" ∧ ("evt-1" : String) ≠ "evt-2") ∧
    (dedupKey (some "msg-1") (some "evt-1") = dedupKey (some "msg-1") (some "evt-2") ∧
      dedupKey (some "msg-1") none ≠ dedupKey (some "msg-2") (some "evt-1") ∧
      dedupKey none (some "evt-1") ≠ dedupKey none (some "evt-2")) :=
  ⟨⟨by decide, by decide⟩,
    dedup_key_identifies_message "msg-1" "msg-1" "msg-2" "evt-1" "evt-2"
      (some "evt-1") (some "evt-2") none (some "evt-1") (by decide) (by decide)⟩

-- ---------------------------------------------------------------------------
-- Event dispatch (src/index.ts lines 214-275) and agent wake (281-338)
-- ---------------------------------------------------------------------------

/-- Wake modes (src/index.ts line 19): tools-invoke, hooks, off. -/
inductive WakeMode where
  | toolsInvoke
  | hooks
  | off
deriving DecidableEq

/-- Message payload fields read by handleEvent (src/index.ts 232-236). -/
structure EmailMessage where
  sender : Option String
  subject : Option String
  preview : Option String
  text : Option String
  messageId : Option String
deriving DecidableEq

/-- Inbound frames, tagged as the source discriminates them by
event.type: subscribed, event (with inner eventType), error. -/
inductive WsEvent where
  | subscribed (inboxIds : List String)
  | lifecycleEvent (eventType : String) (eventId : Option String) (message : EmailMessage)
  | serverError (errName errMessage : String)
deriving DecidableEq

/-- Plugin configuration fields used by handleEvent and wakeAgent. -/
structure ListenerCfg where
  inboxId : String
  sessionKey : Option String
  wake : Option WakeMode
deriving DecidableEq

/-- Host gateway configuration read by wakeAgent via loadConfig
(src/index.ts lines 284-293 and 312). -/
structure GatewayCfg where
  port : Option ℕ
  gatewayToken : Option String
  hooksToken : Option String
  hooksPath : Option String
deriving DecidableEq

/-- Environment of one wakeAgent call: the gateway configuration plus
the outcome the HTTP fetch would produce (ok flag, status, body). -/
structure WakeEnv where
  gc : GatewayCfg
  httpOk : Bool
  httpStatus : ℕ
  httpBody : String
deriving DecidableEq

/-- Environment of one handleEvent call: the wake environment plus
whether the task-queue enqueueSystemEvent call throws, and the message
of the thrown error. -/
structure HandleEnv where
  wenv : WakeEnv
  enqueueThrows : Bool
  enqueueErrMsg : String
deriving DecidableEq

/-- Structured JSON bodies of the two wake HTTP calls. -/
inductive PostBody where
  | hooksWake (text mode : String)
  | toolsCron (tool action text mode : String)
deriving DecidableEq

/-- Observable effects of the dispatch path, in program order. -/
inductive Effect where
  | logInfo (message : String)
  | logWarn (message : String)
  | logError (message : String)
  | enqueue (text sessionKey contextKey : String)
  | httpPost (url : String) (bearer : String) (body : PostBody)
deriving DecidableEq

/-- Recognizer for HTTP POST effects. -/
def isHttpPost : Effect → Bool
  | Effect.httpPost _ _ _ => true
  | _ => false

/-- Recognizer for error-level log effects. -/
def isLogError : Effect → Bool
  | Effect.logError _ => true
  | _ => false

/-- The HTTP POST effects of a trace. -/
def httpPosts (tr : List Effect) : List Effect := tr.filter isHttpPost

/-- The wake text (src/index.ts line 258). -/
def wakeMsgText : String :=
  "You have a new agentmail email. Check the pending system event for details."

/-- Gateway port with its default (src/index.ts line 285). -/
def portOf (gc : GatewayCfg) : ℕ := gc.port.getD 18789

/-- Removal of trailing slashes, modelling replace with the anchored
slash-run pattern on src/index.ts line 293. -/
def stripTrailingSlashes (s : String) : String :=
  String.mk ((s.data.reverse.dropWhile (fun c => c = '/')).reverse)

/-- URL of the hooks wake endpoint (src/index.ts line 294). -/
def hooksWakeUrl (gc : GatewayCfg) : String :=
  "http://127.0.0.1:" ++ toString (portOf gc)
    ++ stripTrailingSlashes (gc.hooksPath.getD "/hooks") ++ "/wake"

/-- URL of the tools-invoke endpoint (src/index.ts line 317). -/
def toolsInvokeUrl (gc : GatewayCfg) : String :=
  "http://127.0.0.1:" ++ toString (portOf gc) ++ "/tools/invoke"

/-- Translation of wakeAgent (src/index.ts lines 281-338). The result is
the effect trace together with the error the async function rejects with
(none when it resolves). Mode off returns at once; a missing credential
is a warning and a clean return; a non-ok HTTP response is a thrown
error carrying status and response body. -/
def wakeAgent (env : WakeEnv) (mode : WakeMode) (text : String) :
    List Effect × Option String :=
  match mode with
  | WakeMode.off => ([], none)
  | WakeMode.hooks =>
    match env.gc.hooksToken with
    | none =>
      ([Effect.logWarn "agentmail-listener: wake=hooks but no hooks.token configured"], none)
    | some tok =>
      let call := Effect.httpPost (hooksWakeUrl env.gc) tok (PostBody.hooksWake text "now")
      if env.httpOk then
        ([call, Effect.logInfo "agentmail-listener: agent wake triggered via hooks"], none)
      else
        ([call], some ("hooks/wake returned " ++ toString env.httpStatus ++ ": " ++ env.httpBody))
  | WakeMode.toolsInvoke =>
    match env.gc.gatewayToken with
    | none =>
      ([Effect.logWarn "agentmail-listener: wake=tools-invoke but no gateway.auth.token configured"], none)
    | some tok =>
      let call := Effect.httpPost (toolsInvokeUrl env.gc) tok
        (PostBody.toolsCron "cron" "wake" text "now")
      if env.httpOk then
        ([call, Effect.logInfo "agentmail-listener: agent wake triggered via tools/invoke"], none)
      else
        ([call],
          some ("tools/invoke cron wake returned " ++ toString env.httpStatus ++ ": " ++ env.httpBody))

/-- The notification text built on src/index.ts lines 238-245: header,
From, Subject, and a Preview line only when the preview is nonempty
(JS truthiness of the string), joined by newlines. -/
def eventTextOf (inboxId sender subject preview : String) : String :=
  String.intercalate "\n"
    (List.filterMap id
      [some ("📧 New email in " ++ inboxId),
       some ("From: " ++ sender),
       some ("Subject: " ++ subject),
       if preview = "" then none else some ("Preview: " ++ preview)])

/-- The info log line of src/index.ts lines 247-249. -/
def recvLogLine (sender subject messageId : String) : String :=
  "agentmail-listener: email received from=" ++ sender
    ++ " subject=\"" ++ subject ++ "\" id=" ++ messageId

/-- Translation of handleEvent (src/index.ts lines 214-275) composed
with the dispatch semantics of its callees: the enqueue call may throw
(caught by the outer catch, which logs an error and skips the wake); the
wakeAgent promise rejection is caught by the attached catch handler,
which logs a warning. The function is total: no failure of enqueue or of
the wake path escapes the dispatch call. -/
def handleEvent (env : HandleEnv) (cfg : ListenerCfg) (event : WsEvent) : List Effect :=
  match event with
  | WsEvent.subscribed inboxIds =>
    [Effect.logInfo ("agentmail-listener: subscribed to inboxes: "
      ++ String.intercalate ", " inboxIds)]
  | WsEvent.lifecycleEvent eventType eventId msg =>
    if eventType = "message.received" then
      let sender := msg.sender.getD "(unknown sender)"
      let subject := msg.subject.getD "(no subject)"
      let preview := derivePreview msg.preview msg.text
      let messageId := msg.messageId.getD (eventId.getD "unknown")
      let text := eventTextOf cfg.inboxId sender subject preview
      let infoLine := Effect.logInfo (recvLogLine sender subject messageId)
      if env.enqueueThrows then
        [infoLine,
         Effect.logError ("agentmail-listener: failed to enqueue system event: "
           ++ env.enqueueErrMsg)]
      else
        let enq := Effect.enqueue text (cfg.sessionKey.getD "agent:main:main")
          ("agentmail:" ++ messageId)
        let wk := wakeAgent env.wenv (cfg.wake.getD WakeMode.toolsInvoke) wakeMsgText
        infoLine :: enq :: (wk.1 ++
          (match wk.2 with
           | some e =>
             [Effect.logWarn ("agentmail-listener: wake failed (event still queued): " ++ e)]
           | none => []))
    else []
  | WsEvent.serverError errName errMessage =>
    [Effect.logError ("agentmail-listener: server error [" ++ errName ++ "]: " ++ errMessage)]

/-- The wake trace itself never contains an error-level log: every
failure inside wakeAgent is either a warning or a rejection value. -/
theorem wakeAgent_fst_no_logError (env : WakeEnv) (mode : WakeMode) (t : String) :
    ∀ e ∈ (wakeAgent env mode t).1, isLogError e = false := by
  intro e he
  cases mode with
  | off => simp [wakeAgent] at he
  | hooks =>
    cases htok : env.gc.hooksToken with
    | none =>
      simp [wakeAgent, htok] at he
      subst he; rfl
    | some tok =>
      cases hok : env.httpOk with
      | true =>
        simp [wakeAgent, htok, hok] at he
        rcases he with h | h <;> subst h <;> rfl
      | false =>
        simp [wakeAgent, htok, hok] at he
        subst he; rfl
  | toolsInvoke =>
    cases htok : env.gc.gatewayToken with
    | none =>
      simp [wakeAgent, htok] at he
      subst he; rfl
    | some tok =>
      cases hok : env.httpOk with
      | true =>
        simp [wakeAgent, htok, hok] at he
        rcases he with h | h <;> subst h <;> rfl
      | false =>
        simp [wakeAgent, htok, hok] at he
        subst he; rfl

/-- Unfolding of handleEvent on a message-received frame when the
enqueue does not throw: the info log, then the enqueue, then the wake
trace, then the warning if the wake rejected. -/
theorem handleEvent_msg_received (env : HandleEnv) (cfg : ListenerCfg)
    (eventId : Option String) (msg : EmailMessage)
    (henq : env.enqueueThrows = false) :
    handleEvent env cfg (WsEvent.lifecycleEvent "message.received" eventId msg)
      = Effect.logInfo (recvLogLine (msg.sender.getD "(unknown sender)")
          (msg.subject.getD "(no subject)") (msg.messageId.getD (eventId.getD "unknown")))
        :: Effect.enqueue
            (eventTextOf cfg.inboxId (msg.sender.getD "(unknown sender)")
              (msg.subject.getD "(no subject)") (derivePreview msg.preview msg.text))
            (cfg.sessionKey.getD "agent:main:main")
            ("agentmail:" ++ (msg.messageId.getD (eventId.getD "unknown")))
        :: ((wakeAgent env.wenv (cfg.wake.getD WakeMode.toolsInvoke) wakeMsgText).1 ++
          (match (wakeAgent env.wenv (cfg.wake.getD WakeMode.toolsInvoke) wakeMsgText).2 with
           | some e =>
             [Effect.logWarn ("agentmail-listener: wake failed (event still queued): " ++ e)]
           | none => [])) := by
  simp [handleEvent, henq]

/-- Claim C8: for every message-received dispatch whose enqueue
succeeds, whatever the wake outcome (any mode, any missing credential,
any HTTP failure), the dispatch produces a plain effect trace (nothing
escapes it), the enqueue effect is present, every effect before the
enqueue is not an HTTP call (the wake attempt strictly follows the
enqueue), and no effect after the enqueue is an error-level log — wake
failures surface as warnings only and cannot undo the enqueue. -/
theorem wake_failure_never_disrupts_enqueue (env : HandleEnv) (cfg : ListenerCfg)
    (eventId : Option String) (msg : EmailMessage)
    (henq : env.enqueueThrows = false) :
    ∃ pre post,
      handleEvent env cfg (WsEvent.lifecycleEvent "message.received" eventId msg)
        = pre ++ Effect.enqueue
            (eventTextOf cfg.inboxId (msg.sender.getD "(unknown sender)")
              (msg.subject.getD "(no subject)") (derivePreview msg.preview msg.text))
            (cfg.sessionKey.getD "agent:main:main")
            ("agentmail:" ++ (msg.messageId.getD (eventId.getD "unknown"))) :: post ∧
      (∀ e ∈ pre, isHttpPost e = false) ∧
      (∀ e ∈ post, isLogError e = false) := by
  refine ⟨[Effect.logInfo (recvLogLine (msg.sender.getD "(unknown sender)")
      (msg.subject.getD "(no subject)") (msg.messageId.getD (eventId.getD "unknown")))],
    (wakeAgent env.wenv (cfg.wake.getD WakeMode.toolsInvoke) wakeMsgText).1 ++
      (match (wakeAgent env.wenv (cfg.wake.getD WakeMode.toolsInvoke) wakeMsgText).2 with
       | some e =>
         [Effect.logWarn ("agentmail-listener: wake failed (event still queued): " ++ e)]
       | none => []), ?_, ?_, ?_⟩
  · rw [handleEvent_msg_received env cfg eventId msg henq]
    rfl
  · intro e he
    simp only [List.mem_singleton] at he
    subst he
    rfl
  · intro e he
    rcases List.mem_append.mp he with h | h
    · exact wakeAgent_fst_no_logError env.wenv _ _ e h
    · rcases hw : (wakeAgent env.wenv (cfg.wake.getD WakeMode.toolsInvoke) wakeMsgText).2 with
        _ | err
      · rw [hw] at h
        simp at h
      · rw [hw] at h
        simp only [List.mem_singleton] at h
        subst h
        rfl

/-- A gateway configuration with a configured gateway auth token. -/
def gcSample : GatewayCfg := ⟨some 18789, some "gw-token", none, none⟩

/-- A wake environment whose HTTP call fails with status 500. -/
def wenvFail : WakeEnv := ⟨gcSample, false, 500, "boom"⟩

/-- A dispatch environment with a failing wake call and a working
enqueue. -/
def henvFail : HandleEnv := ⟨wenvFail, false, ""⟩

/-- A listener configuration in tools-invoke wake mode. -/
def cfgSample : ListenerCfg := ⟨"inbox@agentmail.to", none, some WakeMode.toolsInvoke⟩

/-- A sample inbound message. -/
def msgSample : EmailMessage :=
  ⟨some "alice@example.com", some "Hi", none, some "hello world", some "m-1"⟩

/-- Witness for claim C8: concrete dispatch with an HTTP-500 wake. -/
theorem wake_failure_never_disrupts_enqueue_witness :
    henvFail.enqueueThrows = false ∧
    (∃ pre post,
      handleEvent henvFail cfgSample
          (WsEvent.lifecycleEvent "message.received" (some "e-1") msgSample)
        = pre ++ Effect.enqueue
            (eventTextOf cfgSample.inboxId (msgSample.sender.getD "(unknown sender)")
              (msgSample.subject.getD "(no subject)")
              (derivePreview msgSample.preview msgSample.text))
            (cfgSample.sessionKey.getD "agent:main:main")
            ("agentmail:" ++ (msgSample.messageId.getD ((some "e-1").getD "unknown"))) :: post ∧
      (∀ e ∈ pre, isHttpPost e = false) ∧
      (∀ e ∈ post, isLogError e = false)) :=
  ⟨rfl, wake_failure_never_disrupts_enqueue henvFail cfgSample (some "e-1") msgSample rfl⟩

/-- Claim C9 (amended): for a message-received dispatch with a working
enqueue and a configured gateway auth token, wake mode off produces no
HTTP call, and wake mode tools-invoke produces exactly one POST to the
tools-invoke endpoint carrying the cron wake action, regardless of
whether that call succeeds. (Without a configured gateway token the
source makes no call at all — see the counterexample.) -/
theorem wake_mode_http_calls (env : HandleEnv) (cfg : ListenerCfg)
    (eventId : Option String) (msg : EmailMessage) (tok : String)
    (henq : env.enqueueThrows = false)
    (htok : env.wenv.gc.gatewayToken = some tok) :
    (cfg.wake = some WakeMode.off →
      httpPosts (handleEvent env cfg
        (WsEvent.lifecycleEvent "message.received" eventId msg)) = []) ∧
    (cfg.wake = some WakeMode.toolsInvoke →
      httpPosts (handleEvent env cfg
          (WsEvent.lifecycleEvent "message.received" eventId msg))
        = [Effect.httpPost (toolsInvokeUrl env.wenv.gc) tok
            (PostBody.toolsCron "cron" "wake" wakeMsgText "now")]) := by
  constructor
  · intro hoff
    rw [handleEvent_msg_received env cfg eventId msg henq, hoff]
    simp [wakeAgent, httpPosts, isHttpPost]
  · intro hmode
    rw [handleEvent_msg_received env cfg eventId msg henq, hmode]
    cases hok : env.wenv.httpOk with
    | true => simp [wakeAgent, htok, hok, httpPosts, isHttpPost]
    | false => simp [wakeAgent, htok, hok, httpPosts, isHttpPost]

/-- A gateway configuration with no gateway auth token. -/
def gcNoTok : GatewayCfg := ⟨some 18789, none, none, none⟩

/-- A dispatch environment whose gateway has no auth token. -/
def henvNoTok : HandleEnv := ⟨⟨gcNoTok, true, 200, ""⟩, false, ""⟩

/-- Claim C9 counterexample: in tools-invoke wake mode with no gateway
auth token configured, a message-received event produces zero HTTP
calls, not exactly one — the source logs a warning and returns before
the fetch. -/
theorem tools_invoke_without_token_no_call_cex :
    cfgSample.wake = some WakeMode.toolsInvoke ∧
    httpPosts (handleEvent henvNoTok cfgSample
      (WsEvent.lifecycleEvent "message.received" (some "e-1") msgSample)) = [] := by
  exact ⟨rfl, by decide⟩

/-- Witness for claim C9 at the concrete failing-wake environment. -/
theorem wake_mode_http_calls_witness :
    (henvFail.enqueueThrows = false ∧ henvFail.wenv.gc.gatewayToken = some "gw-token") ∧
    ((cfgSample.wake = some WakeMode.off →
      httpPosts (handleEvent henvFail cfgSample
        (WsEvent.lifecycleEvent "message.received" (some "e-1") msgSample)) = []) ∧
    (cfgSample.wake = some WakeMode.toolsInvoke →
      httpPosts (handleEvent henvFail cfgSample
          (WsEvent.lifecycleEvent "message.received" (some "e-1") msgSample))
        = [Effect.httpPost (toolsInvokeUrl henvFail.wenv.gc) "gw-token"
            (PostBody.toolsCron "cron" "wake" wakeMsgText "now")])) :=
  ⟨⟨rfl, rfl⟩,
    wake_mode_http_calls henvFail cfgSample (some "e-1") msgSample "gw-token" rfl rfl⟩

/-- Claim C10: when the task-queue enqueue throws, the dispatch trace is
exactly the info log followed by the error log — the wake notifier is
never invoked, so no HTTP call (and no wake of any kind) happens for an
event that was not queued. -/
theorem enqueue_throw_skips_wake (env : HandleEnv) (cfg : ListenerCfg)
    (eventId : Option String) (msg : EmailMessage)
    (henq : env.enqueueThrows = true) :
    handleEvent env cfg (WsEvent.lifecycleEvent "message.received" eventId msg)
      = [Effect.logInfo (recvLogLine (msg.sender.getD "(unknown sender)")
          (msg.subject.getD "(no subject)") (msg.messageId.getD (eventId.getD "unknown"))),
         Effect.logError ("agentmail-listener: failed to enqueue system event: "
           ++ env.enqueueErrMsg)] ∧
    httpPosts (handleEvent env cfg
      (WsEvent.lifecycleEvent "message.received" eventId msg)) = [] := by
  have h : handleEvent env cfg (WsEvent.lifecycleEvent "message.received" eventId msg)
      = [Effect.logInfo (recvLogLine (msg.sender.getD "(unknown sender)")
          (msg.subject.getD "(no subject)") (msg.messageId.getD (eventId.getD "unknown"))),
         Effect.logError ("agentmail-listener: failed to enqueue system event: "
           ++ env.enqueueErrMsg)] := by
    simp [handleEvent, henq]
  refine ⟨h, ?_⟩
  rw [h]
  rfl

/-- A dispatch environment whose enqueue call throws. -/
def henvThrow : HandleEnv := ⟨wenvFail, true, "queue full"⟩

/-- Witness for claim C10 at a concrete throwing enqueue. -/
theorem enqueue_throw_skips_wake_witness :
    henvThrow.enqueueThrows = true ∧
    (handleEvent henvThrow cfgSample
        (WsEvent.lifecycleEvent "message.received" (some "e-1") msgSample)
      = [Effect.logInfo (recvLogLine (msgSample.sender.getD "(unknown sender)")
          (msgSample.subject.getD "(no subject)")
          (msgSample.messageId.getD ((some "e-1").getD "unknown"))),
         Effect.logError ("agentmail-listener: failed to enqueue system event: "
           ++ henvThrow.enqueueErrMsg)] ∧
    httpPosts (handleEvent henvThrow cfgSample
      (WsEvent.lifecycleEvent "message.received" (some "e-1") msgSample)) = []) :=
  ⟨rfl, enqueue_throw_skips_wake henvThrow cfgSample (some "e-1") msgSample rfl⟩

-- ---------------------------------------------------------------------------
-- Reconnect supervisor (src/index.ts lines 84-197): module state and
-- event-driven transitions within one start/stop cycle
-- ---------------------------------------------------------------------------

/-- Position of the single control flow driving connectWithBackoff:
idle (no invocation active, possibly a pending timer), sleeping inside
the await of sleep(delay) (line 131), connecting inside the await of
client.websockets.connect (line 144), or listening with handlers
registered (after line 186). Each carries the attempt number of the
invocation. -/
inductive Phase where
  | idle
  | sleeping (attempt : ℕ)
  | connecting (attempt : ℕ)
  | listening (attempt : ℕ)
deriving DecidableEq

/-- The module state of the listener (src/index.ts lines 84-86):
stopped, currentSocket, reconnectTimer (carrying the attempt number its
callback will pass to connectWithBackoff), plus the phase of the control
flow, a fresh-socket counter, the multiset of sockets currently open
(instrumentation for the single-session invariant), the log of backoff
waits performed (each entry the attempt number of one independent
backoffDelay draw), and whether start already ran in this cycle. -/
structure SupState where
  started : Bool
  stopped : Bool
  currentSocket : Option ℕ
  reconnectTimer : Option ℕ
  phase : Phase
  nextSocketId : ℕ
  openSockets : List ℕ
  waits : List ℕ
deriving DecidableEq

/-- External stimuli of one start/stop cycle: service start, resolution
or rejection of the connect await, the close event of the current
socket, the transport error event, the firing of the pending reconnect
timer, the completion of the backoff sleep, and service stop. -/
inductive Ev where
  | start
  | connectOk
  | connectFail
  | closeEvt
  | errorEvt
  | timerFire
  | sleepDone
  | stopEvt
deriving DecidableEq

/-- One transition of the supervisor, faithful to src/index.ts:
start (lines 108-111) runs connectWithBackoff(0), which skips the sleep
and suspends in the connect await; connectOk (lines 144-186) assigns the
new socket to currentSocket and registers handlers with NO stopped check
after the await; connectFail (lines 187-196) clears currentSocket and,
unless stopped, schedules a timer that will call
connectWithBackoff(attempt + 1) after one backoffDelay(attempt + 1)
draw; closeEvt (lines 169-180) returns at once when stopped, else clears
currentSocket and schedules the timer the same way; timerFire completes
that timer wait (recording the draw) and re-enters connectWithBackoff
(lines 124-133), which suspends in sleep when attempt is positive;
sleepDone completes the inner sleep (recording a second draw of the same
attempt, line 131) and, unless stopped (line 132), suspends in the
connect await; errorEvt (lines 182-185) only logs; stopEvt
(lines 88-102) sets stopped, clears the timer and closes and
dereferences the current socket. -/
def supStep (s : SupState) (e : Ev) : SupState :=
  match e with
  | Ev.start =>
    if s.started then s
    else { s with started := true, stopped := false, phase := Phase.connecting 0 }
  | Ev.connectOk =>
    match s.phase with
    | Phase.connecting a =>
      { s with currentSocket := some s.nextSocketId,
               openSockets := s.openSockets ++ [s.nextSocketId],
               nextSocketId := s.nextSocketId + 1,
               phase := Phase.listening a }
    | _ => s
  | Ev.connectFail =>
    match s.phase with
    | Phase.connecting a =>
      if s.stopped then { s with currentSocket := none, phase := Phase.idle }
      else { s with currentSocket := none, phase := Phase.idle,
                    reconnectTimer := some (a + 1) }
    | _ => s
  | Ev.closeEvt =>
    match s.phase with
    | Phase.listening a =>
      if s.stopped then s
      else
        match s.currentSocket with
        | some sid =>
          { s with currentSocket := none,
                   openSockets := s.openSockets.filter (fun i => i ≠ sid),
                   reconnectTimer := some (a + 1),
                   phase := Phase.idle }
        | none => s
    | _ => s
  | Ev.errorEvt => s
  | Ev.timerFire =>
    match s.reconnectTimer with
    | some a =>
      if s.stopped then { s with reconnectTimer := none, waits := s.waits ++ [a],
                                 phase := Phase.idle }
      else if a = 0 then { s with reconnectTimer := none, waits := s.waits ++ [a],
                                  phase := Phase.connecting 0 }
      else { s with reconnectTimer := none, waits := s.waits ++ [a],
                    phase := Phase.sleeping a }
    | none => s
  | Ev.sleepDone =>
    match s.phase with
    | Phase.sleeping a =>
      if s.stopped then { s with waits := s.waits ++ [a], phase := Phase.idle }
      else { s with waits := s.waits ++ [a], phase := Phase.connecting a }
    | _ => s
  | Ev.stopEvt =>
    { s with stopped := true,
             reconnectTimer := none,
             currentSocket := none,
             openSockets :=
               match s.currentSocket with
               | some sid => s.openSockets.filter (fun i => i ≠ sid)
               | none => s.openSockets }

/-- The module state before start runs. -/
def supInit : SupState := ⟨false, false, none, none, Phase.idle, 0, [], []⟩

/-- Folding a list of stimuli over the transition relation. -/
def supRun (s : SupState) (evs : List Ev) : SupState := evs.foldl supStep s

/-- Number of sessions open or pending-open: the sockets counted open by
the instrumentation plus one when a connect handshake is in flight. -/
def liveSessions (s : SupState) : ℕ :=
  s.openSockets.length + (match s.phase with | Phase.connecting _ => 1 | _ => 0)

/-- Whether the prior session handle is fully dereferenced whenever a
new connect handshake is in flight. -/
def derefOk (s : SupState) : Bool :=
  match s.phase, s.currentSocket with
  | Phase.connecting _, some _ => false
  | _, _ => true

/-- Inductive invariant of the supervisor: before start the control flow
is idle with no pending timer; a pending timer implies the control flow
is idle; a referenced socket implies the control flow is listening and
that socket is the only open one; no referenced socket means no open
sockets. -/
def SupInv (s : SupState) : Prop :=
  (s.started = false → s.phase = Phase.idle ∧ s.reconnectTimer = none) ∧
  (∀ a, s.reconnectTimer = some a → s.phase = Phase.idle) ∧
  (∀ sid, s.currentSocket = some sid →
    (∃ n, s.phase = Phase.listening n) ∧ s.openSockets = [sid]) ∧
  (s.currentSocket = none → s.openSockets = [])

/-- The initial state satisfies the invariant. -/
theorem supInv_init : SupInv supInit := by
  refine ⟨fun _ => ⟨rfl, rfl⟩, ?_, ?_, fun _ => rfl⟩
  · intro a h
    simp [supInit] at h
  · intro sid h
    simp [supInit] at h

/-- Every transition preserves the invariant. -/
theorem supInv_step (s : SupState) (e : Ev) (h : SupInv s) : SupInv (supStep s e) := by
  obtain ⟨h1, h2, h3, h4⟩ := h
  cases e with
  | start =>
    by_cases hs : s.started
    · simpa [supStep, hs] using ⟨h1, h2, h3, h4⟩
    · have hb : s.started = false := by simpa using hs
      obtain ⟨hph, htm⟩ := h1 hb
      have hcur : s.currentSocket = none := by
        cases hcur : s.currentSocket with
        | none => rfl
        | some sid =>
          obtain ⟨⟨n, hn⟩, _⟩ := h3 sid hcur
          rw [hph] at hn
          exact absurd hn (by simp)
      refine ⟨by simp [supStep, hs], ?_, ?_, ?_⟩
      · intro a ha
        simp only [supStep, hs, if_false] at ha
        rw [htm] at ha
        cases ha
      · intro sid hsid
        simp only [supStep, hs, if_false] at hsid
        rw [hcur] at hsid
        cases hsid
      · intro hnone
        simpa [supStep, hs] using h4 hcur
  | connectOk =>
    cases hph : s.phase with
    | connecting a =>
      have hcur : s.currentSocket = none := by
        cases hcur : s.currentSocket with
        | none => rfl
        | some sid =>
          obtain ⟨⟨n, hn⟩, _⟩ := h3 sid hcur
          rw [hph] at hn
          cases hn
      have hopen : s.openSockets = [] := h4 hcur
      have htm : s.reconnectTimer = none := by
        cases htm : s.reconnectTimer with
        | none => rfl
        | some t =>
          have := h2 t htm
          rw [hph] at this
          cases this
      refine ⟨?_, ?_, ?_, ?_⟩
      · intro hb
        have := (h1 (by simpa [supStep, hph] using hb)).1
        rw [hph] at this
        cases this
      · intro t ht
        simp only [supStep, hph] at ht
        rw [htm] at ht
        cases ht
      · intro sid hsid
        simp only [supStep, hph] at hsid ⊢
        have hns : s.nextSocketId = sid := by
          simpa using hsid
        subst hns
        exact ⟨⟨a, rfl⟩, by simp [hopen]⟩
      · intro hnone
        simp only [supStep, hph] at hnone
        cases hnone
    | idle => simpa [supStep, hph] using ⟨h1, h2, h3, h4⟩
    | sleeping a => simpa [supStep, hph] using ⟨h1, h2, h3, h4⟩
    | listening a => simpa [supStep, hph] using ⟨h1, h2, h3, h4⟩
  | connectFail =>
    cases hph : s.phase with
    | connecting a =>
      have hcur : s.currentSocket = none := by
        cases hcur : s.currentSocket with
        | none => rfl
        | some sid =>
          obtain ⟨⟨n, hn⟩, _⟩ := h3 sid hcur
          rw [hph] at hn
          cases hn
      have hopen : s.openSockets = [] := h4 hcur
      have hst : s.started = true := by
        cases hb : s.started with
        | true => rfl
        | false =>
          have := (h1 hb).1
          rw [hph] at this
          cases this
      by_cases hstop : s.stopped
      · refine ⟨?_, ?_, ?_, ?_⟩
        · intro hb
          simp only [supStep, hph, hstop, if_true] at hb
          rw [hst] at hb
          cases hb
        · intro t ht
          simp [supStep, hph, hstop]
        · intro sid hsid
          simp only [supStep, hph, hstop, if_true] at hsid
          cases hsid
        · intro _
          simpa [supStep, hph, hstop] using hopen
      · refine ⟨?_, ?_, ?_, ?_⟩
        · intro hb
          simp only [supStep, hph, hstop, if_false] at hb
          rw [hst] at hb
          cases hb
        · intro t ht
          simp [supStep, hph, hstop]
        · intro sid hsid
          simp only [supStep, hph, hstop, if_false] at hsid
          cases hsid
        · intro _
          simpa [supStep, hph, hstop] using hopen
    | idle => simpa [supStep, hph] using ⟨h1, h2, h3, h4⟩
    | sleeping a => simpa [supStep, hph] using ⟨h1, h2, h3, h4⟩
    | listening a => simpa [supStep, hph] using ⟨h1, h2, h3, h4⟩
  | closeEvt =>
    cases hph : s.phase with
    | listening a =>
      by_cases hstop : s.stopped
      · simpa [supStep, hph, hstop] using ⟨h1, h2, h3, h4⟩
      · cases hcur : s.currentSocket with
        | none => simpa [supStep, hph, hstop, hcur] using ⟨h1, h2, h3, h4⟩
        | some sid =>
          obtain ⟨⟨n, hn⟩, hopen⟩ := h3 sid hcur
          have hst : s.started = true := by
            cases hb : s.started with
            | true => rfl
            | false =>
              have := (h1 hb).1
              rw [hph] at this
              cases this
          refine ⟨?_, ?_, ?_, ?_⟩
          · intro hb
            simp only [supStep, hph, hstop, hcur, if_false] at hb
            rw [hst] at hb
            cases hb
          · intro t ht
            simp [supStep, hph, hstop, hcur]
          · intro sid2 hsid
            simp only [supStep, hph, hstop, hcur, if_false] at hsid
            cases hsid
          · intro _
            simp only [supStep, hph, hstop, hcur, if_false]
            rw [hopen]
            simp
    | idle => simpa [supStep, hph] using ⟨h1, h2, h3, h4⟩
    | sleeping a => simpa [supStep, hph] using ⟨h1, h2, h3, h4⟩
    | connecting a => simpa [supStep, hph] using ⟨h1, h2, h3, h4⟩
  | errorEvt => simpa [supStep] using ⟨h1, h2, h3, h4⟩
  | timerFire =>
    cases htm : s.reconnectTimer with
    | none => simpa [supStep, htm] using ⟨h1, h2, h3, h4⟩
    | some a =>
      have hph : s.phase = Phase.idle := h2 a htm
      have hcur : s.currentSocket = none := by
        cases hcur : s.currentSocket with
        | none => rfl
        | some sid =>
          obtain ⟨⟨n, hn⟩, _⟩ := h3 sid hcur
          rw [hph] at hn
          cases hn
      have hopen : s.openSockets = [] := h4 hcur
      have hst : s.started = true := by
        cases hb : s.started with
        | true => rfl
        | false =>
          have := (h1 hb).2
          rw [htm] at this
          cases this
      by_cases hstop : s.stopped
      · refine ⟨?_, ?_, ?_, ?_⟩
        · intro hb
          simp only [supStep, htm, hstop, if_true] at hb
          rw [hst] at hb
          cases hb
        · intro t ht
          simp only [supStep, htm, hstop, if_true] at ht
          cases ht
        · intro sid hsid
          simp only [supStep, htm, hstop, if_true] at hsid
          rw [hcur] at hsid
          cases hsid
        · intro _
          simpa [supStep, htm, hstop] using hopen
      · by_cases ha : a = 0
        · refine ⟨?_, ?_, ?_, ?_⟩
          · intro hb
            simp only [supStep, htm, hstop, ha, if_false, if_true] at hb
            rw [hst] at hb
            cases hb
          · intro t ht
            simp only [supStep, htm, hstop, ha, if_false, if_true] at ht
            cases ht
          · intro sid hsid
            simp only [supStep, htm, hstop, ha, if_false, if_true] at hsid
            rw [hcur] at hsid
            cases hsid
          · intro _
            simpa [supStep, htm, hstop, ha] using hopen
        · refine ⟨?_, ?_, ?_, ?_⟩
          · intro hb
            simp only [supStep, htm, hstop, ha, if_false] at hb
            rw [hst] at hb
            cases hb
          · intro t ht
            simp only [supStep, htm, hstop, ha, if_false] at ht
            cases ht
          · intro sid hsid
            simp only [supStep, htm, hstop, ha, if_false] at hsid
            rw [hcur] at hsid
            cases hsid
          · intro _
            simpa [supStep, htm, hstop, ha] using hopen
  | sleepDone =>
    cases hph : s.phase with
    | sleeping a =>
      have hcur : s.currentSocket = none := by
        cases hcur : s.currentSocket with
        | none => rfl
        | some sid =>
          obtain ⟨⟨n, hn⟩, _⟩ := h3 sid hcur
          rw [hph] at hn
          cases hn
      have hopen : s.openSockets = [] := h4 hcur
      have htm : s.reconnectTimer = none := by
        cases htm : s.reconnectTimer with
        | none => rfl
        | some t =>
          have := h2 t htm
          rw [hph] at this
          cases this
      have hst : s.started = true := by
        cases hb : s.started with
        | true => rfl
        | false =>
          have := (h1 hb).1
          rw [hph] at this
          cases this
      by_cases hstop : s.stopped
      · refine ⟨?_, ?_, ?_, ?_⟩
        · intro hb
          simp only [supStep, hph, hstop, if_true] at hb
          rw [hst] at hb
          cases hb
        · intro t ht
          simp only [supStep, hph, hstop, if_true] at ht
          rw [htm] at ht
          cases ht
        · intro sid hsid
          simp only [supStep, hph, hstop, if_true] at hsid
          rw [hcur] at hsid
          cases hsid
        · intro _
          simpa [supStep, hph, hstop] using hopen
      · refine ⟨?_, ?_, ?_, ?_⟩
        · intro hb
          simp only [supStep, hph, hstop, if_false] at hb
          rw [hst] at hb
          cases hb
        · intro t ht
          simp only [supStep, hph, hstop, if_false] at ht
          rw [htm] at ht
          cases ht
        · intro sid hsid
          simp only [supStep, hph, hstop, if_false] at hsid
          rw [hcur] at hsid
          cases hsid
        · intro _
          simpa [supStep, hph, hstop] using hopen
    | idle => simpa [supStep, hph] using ⟨h1, h2, h3, h4⟩
    | connecting a => simpa [supStep, hph] using ⟨h1, h2, h3, h4⟩
    | listening a => simpa [supStep, hph] using ⟨h1, h2, h3, h4⟩
  | stopEvt =>
    refine ⟨?_, ?_, ?_, ?_⟩
    · intro hb
      have hb2 : s.started = false := by simpa [supStep] using hb
      obtain ⟨hph, _⟩ := h1 hb2
      constructor
      · simpa [supStep] using hph
      · simp [supStep]
    · intro t ht
      simp only [supStep] at ht
      cases ht
    · intro sid hsid
      simp only [supStep] at hsid
      cases hsid
    · intro _
      simp only [supStep]
      cases hcur : s.currentSocket with
      | none => simpa using h4 hcur
      | some sid =>
        obtain ⟨_, hopen⟩ := h3 sid hcur
        rw [hopen]
        simp

/-- The invariant holds after any run from an invariant state. -/
theorem supRun_inv (evs : List Ev) (s : SupState) (h : SupInv s) :
    SupInv (supRun s evs) := by
  induction evs generalizing s with
  | nil => simpa [supRun] using h
  | cons e rest ih =>
    have h1 : SupInv (supStep s e) := supInv_step s e h
    simpa [supRun] using ih (supStep s e) h1

/-- Claim C3: across any sequence of stimuli in one start/stop cycle, at
most one connection session is open or pending-open, and whenever a new
connect handshake is in flight the prior session handle is fully
dereferenced (currentSocket is none). -/
theorem at_most_one_session_invariant (evs : List Ev) :
    liveSessions (supRun supInit evs) ≤ 1 ∧
    derefOk (supRun supInit evs) = true := by
  obtain ⟨h1, h2, h3, h4⟩ := supRun_inv evs supInit supInv_init
  constructor
  · cases hcur : (supRun supInit evs).currentSocket with
    | none =>
      have hopen : (supRun supInit evs).openSockets = [] := h4 hcur
      simp only [liveSessions, hopen, List.length_nil, Nat.zero_add]
      cases hph : (supRun supInit evs).phase <;> simp
    | some sid =>
      obtain ⟨⟨n, hn⟩, hopen⟩ := h3 sid hcur
      simp [liveSessions, hopen, hn]
  · cases hph : (supRun supInit evs).phase with
    | connecting a =>
      cases hcur : (supRun supInit evs).currentSocket with
      | none => simp [derefOk, hph, hcur]
      | some sid =>
        obtain ⟨⟨n, hn⟩, _⟩ := h3 sid hcur
        rw [hph] at hn
        cases hn
    | idle =>
      cases hcur : (supRun supInit evs).currentSocket <;> simp [derefOk, hph, hcur]
    | sleeping a =>
      cases hcur : (supRun supInit evs).currentSocket <;> simp [derefOk, hph, hcur]
    | listening a =>
      cases hcur : (supRun supInit evs).currentSocket <;> simp [derefOk, hph, hcur]

/-- Witness for claim C3 on a concrete run with a failure, a reconnect,
a successful open and a remote close. -/
theorem at_most_one_session_invariant_witness :
    liveSessions (supRun supInit
      [Ev.start, Ev.connectFail, Ev.timerFire, Ev.sleepDone, Ev.connectOk,
       Ev.closeEvt, Ev.timerFire, Ev.sleepDone, Ev.connectOk, Ev.stopEvt]) ≤ 1 ∧
    derefOk (supRun supInit
      [Ev.start, Ev.connectFail, Ev.timerFire, Ev.sleepDone, Ev.connectOk,
       Ev.closeEvt, Ev.timerFire, Ev.sleepDone, Ev.connectOk, Ev.stopEvt]) = true :=
  at_most_one_session_invariant
    [Ev.start, Ev.connectFail, Ev.timerFire, Ev.sleepDone, Ev.connectOk,
     Ev.closeEvt, Ev.timerFire, Ev.sleepDone, Ev.connectOk, Ev.stopEvt]

/-- Claim C1 counterexample: a session that opens successfully after two
failed attempts (attempt counter 2) and then closes schedules the next
reconnect with attempt 3, not attempt 1 — the successful open never
resets the counter (the close handler on src/index.ts line 178 captures
the attempt of its own invocation and passes attempt + 1). -/
theorem attempt_counter_not_reset_cex :
    (supRun supInit
      [Ev.start, Ev.connectFail, Ev.timerFire, Ev.sleepDone, Ev.connectFail,
       Ev.timerFire, Ev.sleepDone, Ev.connectOk, Ev.closeEvt]).reconnectTimer
      = some 3 ∧
    (supRun supInit
      [Ev.start, Ev.connectFail, Ev.timerFire, Ev.sleepDone, Ev.connectFail,
       Ev.timerFire, Ev.sleepDone, Ev.connectOk, Ev.closeEvt]).reconnectTimer
      ≠ some 1 := by
  exact ⟨by decide, by decide⟩

/-- Claim C1 (amended): a successful open does not reset the attempt
counter. Whenever the session opened by the invocation with attempt
counter n ends (close event, not stopped), the next reconnect is
scheduled with attempt n + 1. -/
theorem close_after_open_schedules_attempt_succ (s : SupState) (n sid : ℕ)
    (hph : s.phase = Phase.listening n) (hstop : s.stopped = false)
    (hcur : s.currentSocket = some sid) :
    (supStep s Ev.closeEvt).reconnectTimer = some (n + 1) := by
  simp [supStep, hph, hstop, hcur]

/-- Witness for claim C1 at a concrete listening state with attempt 2. -/
theorem close_after_open_schedules_attempt_succ_witness :
    ((⟨true, false, some 0, none, Phase.listening 2, 1, [0], []⟩ : SupState).phase
        = Phase.listening 2 ∧
      (⟨true, false, some 0, none, Phase.listening 2, 1, [0], []⟩ : SupState).stopped = false ∧
      (⟨true, false, some 0, none, Phase.listening 2, 1, [0], []⟩ : SupState).currentSocket
        = some 0) ∧
    (supStep (⟨true, false, some 0, none, Phase.listening 2, 1, [0], []⟩ : SupState)
      Ev.closeEvt).reconnectTimer = some (2 + 1) :=
  ⟨⟨rfl, rfl, rfl⟩,
    close_after_open_schedules_attempt_succ
      ⟨true, false, some 0, none, Phase.listening 2, 1, [0], []⟩ 2 0 rfl rfl rfl⟩

/-- Claim C2 counterexample: after the first connect failure, the single
reconnect at attempt 1 performs TWO independent backoff waits — one in
the setTimeout that schedules connectWithBackoff (src/index.ts line 194,
delay backoffDelay(attempt + 1)) and one in the sleep inside
connectWithBackoff itself (line 131, delay backoffDelay(attempt)) — so
the wait log shows attempt 1 twice, not once. -/
theorem reconnect_backoff_single_draw_cex :
    (supRun supInit [Ev.start, Ev.connectFail, Ev.timerFire, Ev.sleepDone]).waits
      = [1, 1] ∧
    ((supRun supInit [Ev.start, Ev.connectFail, Ev.timerFire, Ev.sleepDone]).waits.count 1
      = 2 ∧
    (supRun supInit [Ev.start, Ev.connectFail, Ev.timerFire, Ev.sleepDone]).waits.count 1
      ≠ 1) := by
  exact ⟨by decide, by decide, by decide⟩

/-- Claim C2 (amended): for every reconnection with attempt n > 0, the
total wait between the session ending and the next connect attempt
beginning is the SUM OF TWO independent draws of BackoffPolicy(n): the
timer scheduled by the close or failure handler waits one draw, and the
sleep at the top of connectWithBackoff waits a second draw, after which
the connect attempt begins. -/
theorem reconnect_applies_backoff_twice (s : SupState) (n : ℕ)
    (hn : n ≠ 0) (htm : s.reconnectTimer = some n) (hstop : s.stopped = false) :
    (supStep (supStep s Ev.timerFire) Ev.sleepDone).waits = s.waits ++ [n, n] ∧
    (supStep (supStep s Ev.timerFire) Ev.sleepDone).phase = Phase.connecting n := by
  have h1 : supStep s Ev.timerFire
      = { s with reconnectTimer := none, waits := s.waits ++ [n],
                 phase := Phase.sleeping n } := by
    simp [supStep, htm, hstop, hn]
  rw [h1]
  constructor
  · simp [supStep, hstop]
  · simp [supStep, hstop]

/-- Witness for claim C2 at a concrete pending timer with attempt 1. -/
theorem reconnect_applies_backoff_twice_witness :
    ((1 : ℕ) ≠ 0 ∧
      (⟨true, false, none, some 1, Phase.idle, 0, [], []⟩ : SupState).reconnectTimer
        = some 1 ∧
      (⟨true, false, none, some 1, Phase.idle, 0, [], []⟩ : SupState).stopped = false) ∧
    ((supStep (supStep (⟨true, false, none, some 1, Phase.idle, 0, [], []⟩ : SupState)
        Ev.timerFire) Ev.sleepDone).waits = [] ++ [1, 1] ∧
      (supStep (supStep (⟨true, false, none, some 1, Phase.idle, 0, [], []⟩ : SupState)
        Ev.timerFire) Ev.sleepDone).phase = Phase.connecting 1) :=
  ⟨⟨by decide, rfl, rfl⟩,
    reconnect_applies_backoff_twice
      ⟨true, false, none, some 1, Phase.idle, 0, [], []⟩ 1 (by decide) rfl rfl⟩

/-- Claim C6: evaluation of the model at the failing input. When stop
arrives while the connect handshake is in flight (phase connecting) and
the handshake then resolves, the source (src/index.ts lines 144-145)
assigns the newly opened socket to currentSocket with no stopped check
after the await: after stop, a session remains open and referenced
(currentSocket is some 0 and socket 0 is open), even though no further
reconnect is scheduled. This contradicts the claim (and the stated
clean-shutdown behavior): stop during the handshake must leave no
session open or referenced. -/
theorem stop_during_handshake_leaks_session :
    (supRun supInit [Ev.start, Ev.stopEvt, Ev.connectOk]).stopped = true ∧
    (supRun supInit [Ev.start, Ev.stopEvt, Ev.connectOk]).currentSocket = some 0 ∧
    (supRun supInit [Ev.start, Ev.stopEvt, Ev.connectOk]).openSockets = [0] ∧
    (supRun supInit [Ev.start, Ev.stopEvt, Ev.connectOk]).reconnectTimer = none := by
  exact ⟨by decide, by decide, by decide, by decide⟩
